import Mathlib

/-!
Shallow embedding of `tkinter_opencv_video.py` (class `CV2Video`).

Modelling conventions:
* A frame payload is abstracted to a `Nat` identifier; the pixel data itself is
  opaque to the control logic we verify.
* A channel message is `Option Nat`: `some f` is a frame, `none` is the
  end-of-stream marker (`sender.send(None)` in the source).
* The pipe's currently queued messages are an explicit FIFO list; `poll()` is
  "the list is nonempty" and `recv()` pops the head.
* Rational numbers stand in for Python floats; `/` is exact division and
  division by zero is guarded explicitly (Python raises `ZeroDivisionError`,
  modelled as `Option.none` results).
* External collaborators (tkinter, the cv2 capture backend, PIL) appear only
  through the values they hand the core: the display geometry, the result of a
  `capture.read()`, the nominal fps.
-/

set_option autoImplicit false

/-- A channel message: `some f` carries frame payload `f`, `none` is the
end-of-stream marker sent by the producer. -/
abbrev Msg : Type := Option Nat

/-- State of a `CV2Video` instance: the constructor parameters (which
`__reduce__` serializes) together with the mutable fields
`frame_number`, `_frame_collector` (abstracted to whether a producer process
handle is present), `_frame`, `_image`, `_image_needs_update`. -/
structure CV2Video where
  filenameOrIndex : String ⊕ ℤ
  apiPreference : ℤ
  flipped : Bool
  width : Option ℕ
  height : Option ℕ
  useFpsDelay : Bool
  frameNumber : ℕ
  collectorActive : Bool
  frame : Option ℕ
  image : Option ℕ
  imageNeedsUpdate : Bool
deriving Repr, DecidableEq

/-- `CV2Video._on_frame_received`: increment `frame_number`, replace `_frame`,
set `_image_needs_update`. -/
def CV2Video.on_frame_received (s : CV2Video) (f : ℕ) : CV2Video :=
  { s with frameNumber := s.frameNumber + 1, frame := some f, imageNeedsUpdate := true }

/-- `CV2Video._update_image`: clears `_image_needs_update` and republishes the
image from `_frame` (`None` when `_frame is None`).  The cv2/PIL conversion
chain (flip, resize, cvtColor, PhotoImage) is external presentation work; the
published image is modelled as carrying the rendered frame's payload. -/
def CV2Video.update_image (s : CV2Video) : CV2Video :=
  { s with imageNeedsUpdate := false, image := s.frame }

/-- `CV2Video.set_image_dirty`. -/
def CV2Video.set_image_dirty (s : CV2Video) : CV2Video :=
  { s with imageNeedsUpdate := true }

/-- The `while self._frame_receiver.poll(): frame = self._frame_receiver.recv(); ...`
loop of `CV2Video.update`, over the explicit queue of pending messages.
Returns the updated state, the final value of the local `reached_end`
variable, and the messages left on the pipe (the loop runs until `poll()`
is false, i.e. the queue is empty).  Note the source sets `reached_end`
on a `None` message but does not `break`. -/
def CV2Video.drain : CV2Video → List Msg → CV2Video × Bool × List Msg
  | s, [] => (s, false, [])
  | s, some f :: rest => CV2Video.drain (s.on_frame_received f) rest
  | s, none :: rest =>
      let r := CV2Video.drain s rest
      (r.1, true, r.2.2)

/-- Result of one `update()` call: the state afterwards, the returned boolean
(`not reached_end`, i.e. "stream still alive"), and the messages still queued
on the pipe afterwards. -/
structure UpdateResult where
  state : CV2Video
  alive : Bool
  leftover : List Msg
deriving Repr, DecidableEq

/-- `CV2Video.update`: drain the pipe, then refresh the image if
`_image_needs_update`, and return `not reached_end`. -/
def CV2Video.update (s : CV2Video) (queue : List Msg) : UpdateResult :=
  let r := CV2Video.drain s queue
  let s' := if r.1.imageNeedsUpdate then r.1.update_image else r.1
  { state := s', alive := !r.2.1, leftover := r.2.2 }

/-- `CV2Video._get_optimal_size`, as a function of the frame's pixel
dimensions (`self._frame.shape[1]` is the width, `shape[0]` the height) and
the container geometry (`winfo_width()`, `winfo_height()`).  Python computes
`video_aspect_ratio = shape[1] / shape[0]` and
`target_aspect_ratio = max_width / max_height` with true division, raising
`ZeroDivisionError` when a denominator is zero — modelled as `none`.
Otherwise the source compares the two ratios and applies `math.ceil` to the
scaled dimension, modelled with exact rationals and `Int.ceil`. -/
def CV2Video.get_optimal_size (frameW frameH maxW maxH : ℕ) : Option (ℤ × ℤ) :=
  if frameH = 0 ∨ maxH = 0 then none
  else
    let video_aspect_ratio : ℚ := (frameW : ℚ) / (frameH : ℚ)
    let target_aspect_ratio : ℚ := (maxW : ℚ) / (maxH : ℚ)
    if video_aspect_ratio = target_aspect_ratio then
      some ((maxW : ℤ), (maxH : ℤ))
    else if video_aspect_ratio < target_aspect_ratio then
      some (⌈(maxH : ℚ) * video_aspect_ratio⌉, (maxH : ℤ))
    else
      some ((maxW : ℤ), ⌈(maxW : ℚ) / video_aspect_ratio⌉)

/-- `1 / (capture.get(cv2.CAP_PROP_FPS) or 1)` from `_collect_frames`:
Python's `or` substitutes `1` exactly when the reported fps is `0` (falsy). -/
def duration_per_frame (fps : ℚ) : ℚ :=
  1 / (if fps = 0 then 1 else fps)

/-- `next_frame_time += duration_per_frame` from `_collect_frames`: the
deadline accumulates from its previous value, it is not reset to the current
time. -/
def advance_next_frame_time (next_frame_time fps : ℚ) : ℚ :=
  next_frame_time + duration_per_frame fps

/-- The sleep decision of `_collect_frames`: compute
`duration_to_next_frame = next_frame_time - time.time()` and call
`time.sleep` only `if duration_to_next_frame > 0`; `none` means no sleep
happens. -/
def sleep_decision (next_frame_time now : ℚ) : Option ℚ :=
  let duration_to_next_frame := next_frame_time - now
  if duration_to_next_frame > 0 then some duration_to_next_frame else none

/-- `CV2Video.__init__`.  `isMainProcess` models
`multiprocessing.current_process().name == "MainProcess"`, and `firstRead`
models the outcome of the single `capture.read()` done by
`_collect_first_frame` (`some f` when `success` is true) — that read is
attempted only in the main process and only for a `str` source.  A failed
first read stores nothing.  The producer-process branch leaves the pipe
endpoints unset, which is invisible in this state record. -/
def CV2Video.init (filenameOrIndex : String ⊕ ℤ) (apiPreference : ℤ)
    (flipped : Bool) (width height : Option ℕ) (useFpsDelay : Bool)
    (frameNumber : ℕ) (isMainProcess : Bool) (firstRead : Option ℕ) :
    CV2Video :=
  let base : CV2Video :=
    { filenameOrIndex := filenameOrIndex, apiPreference := apiPreference,
      flipped := flipped, width := width, height := height,
      useFpsDelay := useFpsDelay, frameNumber := frameNumber,
      collectorActive := false, frame := none, image := none,
      imageNeedsUpdate := false }
  if isMainProcess then
    match filenameOrIndex with
    | Sum.inl _ =>
        match firstRead with
        | some f => { base with frame := some f, imageNeedsUpdate := true }
        | none => base
    | Sum.inr _ => base
  else base

/-- The argument tuple built by `CV2Video.__reduce__` (the leading `None`
passed for the `container` is dropped: the widget is an external
collaborator). -/
def CV2Video.reduceArgs (s : CV2Video) :
    (String ⊕ ℤ) × ℤ × Bool × Option ℕ × Option ℕ × Bool × ℕ :=
  (s.filenameOrIndex, s.apiPreference, s.flipped, s.width, s.height,
   s.useFpsDelay, s.frameNumber)

/-- Unpickling in the spawned producer process: `__init__` is called with the
`__reduce__` arguments; there `current_process().name` is not `"MainProcess"`,
so no eager first-frame read happens. -/
def CV2Video.reconstruct
    (a : (String ⊕ ℤ) × ℤ × Bool × Option ℕ × Option ℕ × Bool × ℕ) :
    CV2Video :=
  CV2Video.init a.1 a.2.1 a.2.2.1 a.2.2.2.1 a.2.2.2.2.1 a.2.2.2.2.2.1
    a.2.2.2.2.2.2 false none

/-- The cv2 capture handle as configured by `_create_capture`: the opened
source, the backend hint, the requested width/height properties (set only when
not `None`) and `CAP_PROP_POS_FRAMES` (set to `frame_number` only when
`frame_number > 0`; a fresh capture starts at position 0). -/
structure Capture where
  source : String ⊕ ℤ
  api : ℤ
  propWidth : Option ℕ
  propHeight : Option ℕ
  posFrames : ℕ
deriving Repr, DecidableEq

/-- `CV2Video._create_capture`. -/
def CV2Video.create_capture (s : CV2Video) : Capture :=
  let c0 : Capture :=
    { source := s.filenameOrIndex, api := s.apiPreference,
      propWidth := none, propHeight := none, posFrames := 0 }
  let c1 := match s.width with
            | some w => { c0 with propWidth := some w }
            | none => c0
  let c2 := match s.height with
            | some h => { c1 with propHeight := some h }
            | none => c1
  if s.frameNumber > 0 then { c2 with posFrames := s.frameNumber } else c2

/-- `CV2Video.play`: when no collector process exists, spawn one (the spawned
process receives the controller through `__reduce__`) and fire `<<PLAY>>`;
otherwise do nothing. -/
def CV2Video.play (s : CV2Video) : CV2Video :=
  if s.collectorActive then s else { s with collectorActive := true }

/-- `CV2Video.pause`: when a collector process exists, fire `<<PAUSE>>`,
terminate/join/close it and drop the handle; otherwise do nothing. -/
def CV2Video.pause (s : CV2Video) : CV2Video :=
  if s.collectorActive then { s with collectorActive := false } else s

/-- `CV2Video.toggle_play_pause`. -/
def CV2Video.toggle_play_pause (s : CV2Video) : CV2Video :=
  if s.collectorActive then s.pause else s.play

/-- `CV2Video.reset`: `pause()` then `frame_number = 0`. -/
def CV2Video.reset (s : CV2Video) : CV2Video :=
  { s.pause with frameNumber := 0 }

/-- A controller operation, for stating invariants over operation sequences.
`update q` carries the messages queued on the pipe when `update()` runs. -/
inductive Op where
  | play : Op
  | pause : Op
  | toggle : Op
  | reset : Op
  | update : List Msg → Op
deriving Repr, DecidableEq

/-- One controller operation applied to the state. -/
def Op.step (s : CV2Video) : Op → CV2Video
  | .play => s.play
  | .pause => s.pause
  | .toggle => s.toggle_play_pause
  | .reset => s.reset
  | .update q => (s.update q).state

/-- A sequence of controller operations applied in order. -/
def Op.run (s : CV2Video) (ops : List Op) : CV2Video :=
  List.foldl Op.step s ops

/-- The failure a `sender.send(...)` raises when the consumer end of the pipe
is gone (`BrokenPipeError` in Python). -/
inductive ProducerError where
  | brokenPipe : ProducerError
deriving Repr, DecidableEq

/-- One `sender.send(m)` call in the producer process: appends `m` to the
messages in flight, or raises when the receiving end has been closed. -/
def Pipe.send (receiverClosed : Bool) (m : Msg) (sent : List Msg) :
    Except ProducerError (List Msg) :=
  if receiverClosed then Except.error ProducerError.brokenPipe
  else Except.ok (sent ++ [m])

/-- The `while not sender.closed:` read/send loop of
`CV2Video._collect_frames`.  `reads` is the sequence of frames the capture
will still deliver successfully; once it is exhausted `capture.read()`
reports failure, upon which the loop sends `None` and breaks.
`receiverClosed` says whether the consumer has closed its pipe end;
`senderClosed` is the producer's own handle flag tested by the loop guard
(the producer never closes its own handle, so in the source this stays
false).  The source wraps the loop only in `try/finally` for
`capture.release()`: there is no `except` clause, so a raised send error
propagates out, modelled by `Except.error`.  The `Except.ok` value is the
final list of messages put in flight. -/
def collect_frames_loop (receiverClosed senderClosed : Bool) :
    List ℕ → List Msg → Except ProducerError (List Msg)
  | [], sent =>
      if senderClosed then Except.ok sent
      else Pipe.send receiverClosed none sent
  | f :: rest, sent =>
      if senderClosed then Except.ok sent
      else
        match Pipe.send receiverClosed (some f) sent with
        | Except.error e => Except.error e
        | Except.ok sent' => collect_frames_loop receiverClosed senderClosed rest sent'

/-- `CV2Video._collect_frames` run from the start: the child's own sender
handle is open, no message sent yet. -/
def collect_frames (receiverClosed : Bool) (reads : List ℕ) :
    Except ProducerError (List Msg) :=
  collect_frames_loop receiverClosed false reads []

/-- The webcam example instance from the source's `__main__` block
(`filename_or_index=0`, `cv2.CAP_ANY = 0`, `flipped=True`, `width=1920`,
`height=1080`, `use_fps_delay=False`), constructed in the main process. -/
def webcamExample : CV2Video :=
  CV2Video.init (Sum.inr 0) 0 true (some 1920) (some 1080) false 0 true none

/-- A controller paused mid-playback at frame 5 of a file-backed source,
like the commented-out video example of the source's `__main__` block. -/
def pausedExample : CV2Video :=
  CV2Video.init (Sum.inl "video.avi") 0 false none none true 5 true none

/-! ## Helper lemmas about the drain loop -/

/-- Characterization of the drain loop: every queued message is consumed,
frames are folded into the state in order (also those queued after a marker),
and `reached_end` ends up true exactly when some marker was in the queue. -/
theorem CV2Video.drain_eq (q : List Msg) : ∀ s : CV2Video,
    CV2Video.drain s q
      = (List.foldl CV2Video.on_frame_received s (q.filterMap id),
         decide (none ∈ q), []) := by
  induction q with
  | nil => intro s; simp [CV2Video.drain]
  | cons m rest ih =>
      intro s
      cases m with
      | some f => simp [CV2Video.drain, ih]
      | none => simp [CV2Video.drain, ih]

/-- Folding frames only adds to `frame_number`. -/
theorem CV2Video.foldl_on_frame_received_frameNumber (fs : List ℕ) :
    ∀ s : CV2Video,
    (List.foldl CV2Video.on_frame_received s fs).frameNumber
      = s.frameNumber + fs.length := by
  induction fs with
  | nil => intro s; simp
  | cons f rest ih =>
      intro s
      simp [ih, CV2Video.on_frame_received]
      omega

/-- Folding frames leaves `_frame` at the last one (or untouched when none). -/
theorem CV2Video.foldl_on_frame_received_frame (fs : List ℕ) :
    ∀ s : CV2Video,
    (List.foldl CV2Video.on_frame_received s fs).frame
      = (match fs.getLast? with
         | some f => some f
         | none => s.frame) := by
  induction fs with
  | nil => intro s; simp
  | cons f rest ih =>
      intro s
      cases h : rest.getLast? with
      | some g => simp [ih, CV2Video.on_frame_received, List.getLast?_cons, h]
      | none =>
          have hrest : rest = [] := by
            cases rest with
            | nil => rfl
            | cons a t => simp [List.getLast?_cons] at h
          subst hrest
          simp [CV2Video.on_frame_received]

/-- `_update_image` does not touch `frame_number`. -/
theorem CV2Video.update_image_frameNumber (s : CV2Video) :
    s.update_image.frameNumber = s.frameNumber := rfl

/-- `update()` consumes every queued message. -/
theorem CV2Video.update_leftover (s : CV2Video) (q : List Msg) :
    (s.update q).leftover = [] := by
  simp [CV2Video.update, CV2Video.drain_eq]

/-- The boolean returned by `update()` is computed from this call's queue
alone: it is `false` exactly when a marker was among the drained messages. -/
theorem CV2Video.update_alive_eq (s : CV2Video) (q : List Msg) :
    (s.update q).alive = !decide (none ∈ q) := by
  simp [CV2Video.update, CV2Video.drain_eq]

/-- `update()` adds the number of drained frame messages (markers excluded,
position in the queue irrelevant) to `frame_number`. -/
theorem CV2Video.update_frameNumber (s : CV2Video) (q : List Msg) :
    (s.update q).state.frameNumber = s.frameNumber + (q.filterMap id).length := by
  simp only [CV2Video.update, CV2Video.drain_eq]
  split
  · rw [CV2Video.update_image_frameNumber, CV2Video.foldl_on_frame_received_frameNumber]
  · rw [CV2Video.foldl_on_frame_received_frameNumber]

/-- `update()` leaves `_frame` at the last drained frame message (or
untouched when the queue holds no frame). -/
theorem CV2Video.update_frame (s : CV2Video) (q : List Msg) :
    (s.update q).state.frame
      = (match (q.filterMap id).getLast? with
         | some f => some f
         | none => s.frame) := by
  simp only [CV2Video.update, CV2Video.drain_eq]
  split
  · show (List.foldl _ s _).update_image.frame = _
    rw [show ∀ t : CV2Video, t.update_image.frame = t.frame from fun _ => rfl]
    rw [CV2Video.foldl_on_frame_received_frame]
  · rw [CV2Video.foldl_on_frame_received_frame]

/-- Frames mapped onto the channel carry no marker. -/
theorem mem_map_some_ne_none (frames : List ℕ) : ¬ none ∈ frames.map some := by
  simp [List.mem_map]

/-- Recovering the frame payloads from a marker-free queue. -/
theorem filterMap_id_map_some (frames : List ℕ) :
    (frames.map some).filterMap id = frames := by
  induction frames with
  | nil => rfl
  | cons f rest ih => simp [ih]

/-- No single non-`reset` operation decreases `frame_number`. -/
theorem Op.step_frameNumber_mono (s : CV2Video) (op : Op) (h : op ≠ Op.reset) :
    s.frameNumber ≤ (Op.step s op).frameNumber := by
  cases op with
  | play => simp only [Op.step, CV2Video.play]; split <;> simp
  | pause => simp only [Op.step, CV2Video.pause]; split <;> simp
  | toggle =>
      simp only [Op.step, CV2Video.toggle_play_pause, CV2Video.pause, CV2Video.play]
      split <;> simp
  | reset => exact absurd rfl h
  | update q => rw [Op.step, CV2Video.update_frameNumber]; omega

/-! ## Claim theorems -/

/-- Claim C1: for a frame and a geometry with positive dimensions, the
compositor's size computation returns the geometry exactly when the aspect
ratios agree, fits the full height with width `ceil(max_height * ratio)` when
the frame's ratio is smaller, and fits the full width with height
`ceil(max_width / ratio)` when it is larger. -/
theorem getOptimalSize_aspect_cases (fw fh mw mh : ℕ)
    (hfh : 0 < fh) (hmw : 0 < mw) (hmh : 0 < mh) :
    ((fw : ℚ) / (fh : ℚ) = (mw : ℚ) / (mh : ℚ) →
       CV2Video.get_optimal_size fw fh mw mh = some ((mw : ℤ), (mh : ℤ))) ∧
    ((fw : ℚ) / (fh : ℚ) < (mw : ℚ) / (mh : ℚ) →
       CV2Video.get_optimal_size fw fh mw mh
         = some (⌈(mh : ℚ) * ((fw : ℚ) / (fh : ℚ))⌉, (mh : ℤ))) ∧
    ((mw : ℚ) / (mh : ℚ) < (fw : ℚ) / (fh : ℚ) →
       CV2Video.get_optimal_size fw fh mw mh
         = some ((mw : ℤ), ⌈(mw : ℚ) / ((fw : ℚ) / (fh : ℚ))⌉)) := by
  have hguard : ¬(fh = 0 ∨ mh = 0) := by omega
  refine ⟨fun h => ?_, fun h => ?_, fun h => ?_⟩
  · simp [CV2Video.get_optimal_size, hguard, h]
  · simp [CV2Video.get_optimal_size, hguard, ne_of_lt h, h]
  · simp [CV2Video.get_optimal_size, hguard, ne_of_gt h, not_lt.mpr h.le]

/-- Witness for C1 at a 4:3 frame and an 8×6 geometry (equal ratios). -/
theorem getOptimalSize_aspect_cases_witness :
    CV2Video.get_optimal_size 4 3 8 6 = some (8, 6) :=
  (getOptimalSize_aspect_cases 4 3 8 6 (by norm_num) (by norm_num)
    (by norm_num)).1 (by norm_num)

/-- Counterexample to claim C5: the size computation does not tolerate
degenerate geometries.  A geometry of height 0 makes
`target_aspect_ratio = max_width / max_height` raise `ZeroDivisionError`
(modelled `none`), and a geometry of width 0 yields the size `(0, 0)`,
whose components are not at least 1. -/
theorem getOptimalSize_zero_geometry_cx :
    CV2Video.get_optimal_size 4 3 5 0 = none ∧
    CV2Video.get_optimal_size 4 3 0 5 = some (0, 0) := by
  constructor <;> norm_num [CV2Video.get_optimal_size]

/-- Claim C5 as amended: for a frame with positive dimensions and a geometry
with positive width and height, the size computation succeeds and both
components of the computed size are at least 1. -/
theorem getOptimalSize_pos_geometry_ge_one (fw fh mw mh : ℕ)
    (hfw : 0 < fw) (hfh : 0 < fh) (hmw : 0 < mw) (hmh : 0 < mh) :
    ∃ w h : ℤ, CV2Video.get_optimal_size fw fh mw mh = some (w, h) ∧
      1 ≤ w ∧ 1 ≤ h := by
  have hguard : ¬(fh = 0 ∨ mh = 0) := by omega
  have hvar : 0 < (fw : ℚ) / (fh : ℚ) :=
    div_pos (by exact_mod_cast hfw) (by exact_mod_cast hfh)
  rcases lt_trichotomy ((fw : ℚ) / (fh : ℚ)) ((mw : ℚ) / (mh : ℚ)) with hlt | heq | hgt
  · refine ⟨⌈(mh : ℚ) * ((fw : ℚ) / (fh : ℚ))⌉, mh, ?_, ?_, by exact_mod_cast hmh⟩
    · simp [CV2Video.get_optimal_size, hguard, ne_of_lt hlt, hlt]
    · have h0 : (0 : ℤ) < ⌈(mh : ℚ) * ((fw : ℚ) / (fh : ℚ))⌉ :=
        Int.ceil_pos.mpr (mul_pos (by exact_mod_cast hmh) hvar)
      omega
  · exact ⟨mw, mh, by simp [CV2Video.get_optimal_size, hguard, heq],
      by exact_mod_cast hmw, by exact_mod_cast hmh⟩
  · refine ⟨mw, ⌈(mw : ℚ) / ((fw : ℚ) / (fh : ℚ))⌉, ?_, by exact_mod_cast hmw, ?_⟩
    · simp [CV2Video.get_optimal_size, hguard, ne_of_gt hgt, not_lt.mpr hgt.le]
    · have h0 : (0 : ℤ) < ⌈(mw : ℚ) / ((fw : ℚ) / (fh : ℚ))⌉ :=
        Int.ceil_pos.mpr (div_pos (by exact_mod_cast hmw) hvar)
      omega

/-- Witness for amended C5 at a 4:3 frame and a 5×5 geometry. -/
theorem getOptimalSize_pos_geometry_ge_one_witness :
    ∃ w h : ℤ, CV2Video.get_optimal_size 4 3 5 5 = some (w, h) ∧
      1 ≤ w ∧ 1 ≤ h :=
  getOptimalSize_pos_geometry_ge_one 4 3 5 5 (by norm_num) (by norm_num)
    (by norm_num) (by norm_num)

/-- Counterexample to claim C2: end-of-stream is recorded only in the local
`reached_end` variable of `update()`.  From the webcam example state, an
`update()` that drains the end-of-stream marker returns `False`, yet the very
next `update()` on the now-empty pipe returns `True` again. -/
theorem update_end_not_persisted_cx :
    (webcamExample.update [none]).alive = false ∧
    ((webcamExample.update [none]).state.update []).alive = true := by decide

/-- Claim C2 as amended: the boolean returned by `update()` reflects only the
messages drained by that same call — it is `false` exactly when a marker was
in this call's queue — and a subsequent `update()` with an empty queue
returns `true` again regardless of any marker seen before. -/
theorem update_alive_not_persistent (s : CV2Video) (q : List Msg) :
    ((s.update q).alive = false ↔ none ∈ q) ∧
    ((s.update q).state.update []).alive = true := by
  constructor
  · rw [CV2Video.update_alive_eq]; simp
  · rw [CV2Video.update_alive_eq]; simp

/-- Counterexample to claim C3: from the webcam example state with the queue
`[None, frame 7]`, `update()` consumes and processes the frame queued after
the marker — `frame_number` is incremented and `_frame` replaced — because
the drain loop records `reached_end` without breaking. -/
theorem update_past_marker_cx :
    (webcamExample.update [none, some 7]).state.frameNumber = 1 ∧
    (webcamExample.update [none, some 7]).state.frame = some 7 ∧
    (webcamExample.update [none, some 7]).leftover = [] ∧
    (webcamExample.update [none, some 7]).alive = false := by decide

/-- Claim C3 as amended: on a `StreamEndMarker`, `update()` records
end-of-stream for its return value but keeps draining — every queued message
is consumed, and every frame message in the queue (also one behind a marker)
is processed into `frame_number`. -/
theorem update_marker_records_end_but_keeps_draining (s : CV2Video) (q : List Msg) :
    (s.update q).leftover = [] ∧
    ((s.update q).alive = false ↔ none ∈ q) ∧
    (s.update q).state.frameNumber = s.frameNumber + (q.filterMap id).length := by
  refine ⟨CV2Video.update_leftover s q, ?_, CV2Video.update_frameNumber s q⟩
  rw [CV2Video.update_alive_eq]; simp

/-- Claim C4: a burst of `M` frame messages (no marker) queued before one
`update()` call is drained completely by that call: the return value stays
`true`, nothing is left on the pipe, `frame_number` grows by exactly `M`, and
`_frame` ends at the last queued frame (unchanged when `M = 0`). -/
theorem update_burst_drains_all (s : CV2Video) (frames : List ℕ) :
    (s.update (frames.map some)).alive = true ∧
    (s.update (frames.map some)).leftover = [] ∧
    (s.update (frames.map some)).state.frameNumber
      = s.frameNumber + frames.length ∧
    (s.update (frames.map some)).state.frame
      = (match frames.getLast? with
         | some f => some f
         | none => s.frame) := by
  have hnm := mem_map_some_ne_none frames
  refine ⟨?_, CV2Video.update_leftover s _, ?_, ?_⟩
  · rw [CV2Video.update_alive_eq]; simp [hnm]
  · rw [CV2Video.update_frameNumber, filterMap_id_map_some]
  · rw [CV2Video.update_frame, filterMap_id_map_some]

/-- Claim C6: with pacing enabled the producer derives the frame interval as
`1 / fps` with fallback `fps = 1` when the backend reports 0, advances the
deadline by adding the interval to its previous value (accumulating, not
resetting from the current time), and sleeps only for strictly positive
durations — exactly when the next deadline lies in the future. -/
theorem pacing_interval_deadline_sleep (fps t now : ℚ) :
    (fps = 0 → duration_per_frame fps = 1) ∧
    (fps ≠ 0 → duration_per_frame fps = 1 / fps) ∧
    advance_next_frame_time t fps = t + duration_per_frame fps ∧
    (∀ d : ℚ, sleep_decision t now = some d → 0 < d) ∧
    ((sleep_decision t now).isSome ↔ now < t) := by
  refine ⟨fun h => ?_, fun h => ?_, rfl, fun d hd => ?_, ?_, ?_⟩
  · simp [duration_per_frame, h]
  · simp [duration_per_frame, h]
  · simp only [sleep_decision] at hd
    split at hd
    next hpos => cases hd; exact hpos
    next => exact Option.noConfusion hd
  · intro hs
    simp only [sleep_decision] at hs
    split at hs
    next hpos => exact sub_pos.mp hpos
    next => simp at hs
  · intro hlt
    simp only [sleep_decision]
    rw [if_pos (sub_pos.mpr hlt)]
    rfl

/-- Witness for C6: fps 0 falls back to interval 1; a deadline one second in
the future yields a strictly positive sleep. -/
theorem pacing_interval_deadline_sleep_witness :
    duration_per_frame 0 = 1 ∧ duration_per_frame 25 = 1 / 25 ∧ (0 : ℚ) < 1 :=
  ⟨(pacing_interval_deadline_sleep 0 2 1).1 rfl,
   (pacing_interval_deadline_sleep 25 2 1).2.1 (by norm_num),
   (pacing_interval_deadline_sleep 0 2 1).2.2.2.1 1 (by norm_num [sleep_decision])⟩

/-- Claim C7: for a controller paused at `frame_number = N > 0`, the producer
spawned by `play()` is rebuilt from the `__reduce__` arguments, which carry
the current frame number, and `_create_capture` in that producer sets
`CAP_PROP_POS_FRAMES` to exactly `N` at open time. -/
theorem resume_offset_capture_position (v : CV2Video) (h : 0 < v.frameNumber) :
    (CV2Video.reconstruct v.reduceArgs).frameNumber = v.frameNumber ∧
    (CV2Video.reconstruct v.reduceArgs).create_capture.posFrames
      = v.frameNumber := by
  obtain ⟨fi, api, fl, w, hgt, ufd, fn, ca, fr, im, dirty⟩ := v
  refine ⟨rfl, ?_⟩
  simp only [CV2Video.reconstruct, CV2Video.reduceArgs, CV2Video.init,
    CV2Video.create_capture] at *
  cases w <;> cases hgt <;> simp [h]

/-- Witness for C7: the file-backed example paused at frame 5 resumes with
`CAP_PROP_POS_FRAMES = 5`. -/
theorem resume_offset_capture_position_witness :
    (CV2Video.reconstruct pausedExample.reduceArgs).frameNumber = 5 ∧
    (CV2Video.reconstruct pausedExample.reduceArgs).create_capture.posFrames
      = 5 :=
  resume_offset_capture_position pausedExample (by decide)

/-- Claim C8: over any sequence of `play`/`pause`/`toggle`/`update`
operations, `frame_number` never decreases, and an explicit `reset()` sets it
to exactly 0. -/
theorem frameNumber_monotone_and_reset_zero (s t : CV2Video) (ops : List Op)
    (h : Op.reset ∉ ops) :
    s.frameNumber ≤ (Op.run s ops).frameNumber ∧
    (Op.step t Op.reset).frameNumber = 0 := by
  refine ⟨?_, rfl⟩
  induction ops generalizing s with
  | nil => simp [Op.run]
  | cons op rest ih =>
      rw [List.mem_cons, not_or] at h
      obtain ⟨h1, h2⟩ := h
      calc s.frameNumber
          ≤ (Op.step s op).frameNumber :=
            Op.step_frameNumber_mono s op (Ne.symm h1)
        _ ≤ (Op.run (Op.step s op) rest).frameNumber := ih (Op.step s op) h2

/-- Witness for C8: a play/update/pause/toggle sequence from the webcam
example never lowers `frame_number`, and `reset()` zeroes it. -/
theorem frameNumber_monotone_and_reset_zero_witness :
    webcamExample.frameNumber ≤
      (Op.run webcamExample
        [Op.play, Op.update [some 3, some 4], Op.pause, Op.toggle]).frameNumber ∧
    (Op.step webcamExample Op.reset).frameNumber = 0 :=
  frameNumber_monotone_and_reset_zero webcamExample webcamExample
    [Op.play, Op.update [some 3, some 4], Op.pause, Op.toggle] (by decide)

/-- Counterexample to claim C9: when the consumer's pipe end is closed, the
producer loop does not exit silently — the failed `send` propagates as an
error out of `_collect_frames` (there is no `except` clause around the loop),
whereas with the receiver open the loop completes normally. -/
theorem collect_frames_closed_pipe_cx :
    collect_frames true [5] = Except.error ProducerError.brokenPipe ∧
    collect_frames false [5] = Except.ok [some 5, none] := by
  constructor <;> rfl

/-- Claim C9 as amended: a send failure caused by the consumer having closed
its end is not swallowed: whatever the capture still delivers, the producer
loop terminates with the `BrokenPipeError` propagating out of
`_collect_frames` (the loop guard `while not sender.closed` tests only the
producer's own handle, which stays open, so it never exits the loop for a
closed consumer). -/
theorem collect_frames_send_failure_propagates (reads : List ℕ)
    (sent : List Msg) :
    collect_frames_loop true false reads sent
      = Except.error ProducerError.brokenPipe := by
  cases reads with
  | nil => rfl
  | cons f rest => rfl

/-- Claim C10: constructing in the main process with a file-path (string)
source eagerly reads one frame: on success that frame becomes `_frame` and
the display is marked dirty while `frame_number` keeps its initial value;
with an integer (device-index) source no eager read happens — the resulting
state is independent of any would-be read outcome, with `_frame` empty and
the display not dirty. -/
theorem init_eager_first_frame (path : String) (idx : ℤ) (api : ℤ) (fl : Bool)
    (w hgt : Option ℕ) (ufd : Bool) (fn : ℕ) (f : ℕ) (r1 r2 : Option ℕ) :
    (CV2Video.init (Sum.inl path) api fl w hgt ufd fn true (some f)).frame
      = some f ∧
    (CV2Video.init (Sum.inl path) api fl w hgt ufd fn true (some f)).imageNeedsUpdate
      = true ∧
    (CV2Video.init (Sum.inl path) api fl w hgt ufd fn true (some f)).frameNumber
      = fn ∧
    CV2Video.init (Sum.inr idx) api fl w hgt ufd fn true r1
      = CV2Video.init (Sum.inr idx) api fl w hgt ufd fn true r2 ∧
    (CV2Video.init (Sum.inr idx) api fl w hgt ufd fn true r1).frame = none ∧
    (CV2Video.init (Sum.inr idx) api fl w hgt ufd fn true r1).imageNeedsUpdate
      = false :=
  ⟨rfl, rfl, rfl, rfl, rfl, rfl⟩
